import Mathlib

/-!
# MineBloom core model

A shallow embedding of the business-logic core of `src/mainbloom.py`
(the MineBloom journaling companion): the per-user journal entry store
with its JSON persistence (`User.add_journal_entry`, `User._save_journals`,
`User._load_journals`), the journal secret check
(`User.check_journal_password`), the daily affirmation provider
(`DailyAffirmationProvider.get_affirmation`), the recent-action stack
(`StackManager`), the red-flag questionnaire scoring (`next_q` inside
`_open_red_flag_detector`) and the login handler (`do_login` inside
`_build_login_screen`).

Python `datetime.datetime` values are modelled as a record of `Nat`
components plus an optional UTC offset; `datetime.isoformat` /
`datetime.fromisoformat` are modelled as character-list formatting and
parsing over that record. The parser follows CPython 3.7-3.10's
`fromisoformat` — date-only strings, an arbitrary single separator
character, partial clock parts, three- or six-digit fractions and
`±HH:MM[:SS[.ffffff]]` offsets, with the constructor's field-range
validation (real month lengths, leap years) — which accepts exactly the
formats `isoformat` emits; CPython 3.11 widened the accepted grammar
further (`Z` suffix, basic formats, week dates), which is outside this
model. Fallible I/O (the backing JSON file) is modelled as an explicit
`FileState` value threaded through the operations, with a `Bool`
parameter standing for success or failure of a write.
-/

/-- Numeric value of a decimal digit character (`ord(c) - ord('0')`). -/
def digitVal (c : Char) : Nat := c.toNat - 48

/-- Two-digit zero-padded decimal rendering, as in Python's `%02d`
used by `datetime.isoformat` for month, day, hour, minute, second. -/
def pad2 (n : Nat) : List Char := [Nat.digitChar (n / 10), Nat.digitChar (n % 10)]

/-- Four-digit zero-padded decimal rendering (`%04d`), used for the year. -/
def pad4 (n : Nat) : List Char :=
  [Nat.digitChar (n / 1000), Nat.digitChar (n / 100 % 10),
   Nat.digitChar (n / 10 % 10), Nat.digitChar (n % 10)]

/-- Six-digit zero-padded decimal rendering (`%06d`), used for microseconds. -/
def pad6 (n : Nat) : List Char :=
  [Nat.digitChar (n / 100000), Nat.digitChar (n / 10000 % 10),
   Nat.digitChar (n / 1000 % 10), Nat.digitChar (n / 100 % 10),
   Nat.digitChar (n / 10 % 10), Nat.digitChar (n % 10)]

/-- A Python `datetime.datetime` value: calendar and clock fields, plus the
UTC offset of its `tzinfo` in microseconds (`none` for a naive datetime).
The program itself only constructs naive datetimes, but
`datetime.fromisoformat` can return aware ones for strings carrying an
offset, so the model carries the field. -/
structure PyDateTime where
  year : Nat
  month : Nat
  day : Nat
  hour : Nat
  minute : Nat
  second : Nat
  microsecond : Nat
  tzoffset : Option Int
deriving DecidableEq, Repr

/-- Python's `_is_leap`: a year is a leap year iff divisible by 4 and not
by 100 unless also by 400. -/
def isLeapYear (y : Nat) : Bool :=
  y % 4 = 0 && (y % 100 != 0 || y % 400 = 0)

/-- Python's `_days_in_month`: the number of days of a month, leap years
included. -/
def daysInMonth (y m : Nat) : Nat :=
  if m = 2 then (if isLeapYear y then 29 else 28)
  else if m = 4 ∨ m = 6 ∨ m = 9 ∨ m = 11 then 30
  else 31

/-- The invariants of the datetimes the program itself constructs: the
`datetime.datetime` constructor's field ranges (year 1-9999, month 1-12,
day 1-`daysInMonth`, clock fields in range), and naive (no tzinfo) —
every datetime the program creates (`now()`, the date/time pickers,
midnight normalization) is naive. -/
def ValidPyDateTime (dt : PyDateTime) : Prop :=
  1 ≤ dt.year ∧ dt.year ≤ 9999 ∧ 1 ≤ dt.month ∧ dt.month ≤ 12 ∧
  1 ≤ dt.day ∧ dt.day ≤ daysInMonth dt.year dt.month ∧ dt.hour ≤ 23 ∧
  dt.minute ≤ 59 ∧ dt.second ≤ 59 ∧ dt.microsecond ≤ 999999 ∧
  dt.tzoffset = none

instance (dt : PyDateTime) : Decidable (ValidPyDateTime dt) := by
  unfold ValidPyDateTime; infer_instance

/-- Python's `_format_offset`: an aware datetime's UTC offset rendered as
`±HH:MM`, extended with `:SS` when the offset has seconds and with
`.ffffff` when it has microseconds. -/
def offsetSuffix (off : Int) : List Char :=
  let sign := if off < 0 then '-' else '+'
  let a := off.natAbs
  let hh := a / 3600000000
  let mm := a % 3600000000 / 60000000
  let ss := a % 60000000 / 1000000
  let us := a % 1000000
  sign :: pad2 hh ++ ':' :: pad2 mm ++
    (if ss = 0 ∧ us = 0 then [] else ':' :: pad2 ss ++ (if us = 0 then [] else '.' :: pad6 us))

/-- `datetime.isoformat()`: `YYYY-MM-DDTHH:MM:SS`, extended with
`.ffffff` when the microsecond field is nonzero, and with the UTC offset
suffix when the datetime is aware. -/
def isoformat (dt : PyDateTime) : List Char :=
  pad4 dt.year ++ '-' :: (pad2 dt.month ++ '-' :: (pad2 dt.day ++ 'T' ::
    (pad2 dt.hour ++ ':' :: (pad2 dt.minute ++ ':' :: (pad2 dt.second ++
      (if dt.microsecond = 0 then [] else '.' :: pad6 dt.microsecond) ++
      (match dt.tzoffset with
       | none => []
       | some off => offsetSuffix off))))))

/-- `isoformat` packaged as a Lean `String`, matching the Python method's
return type. -/
def isoformatStr (dt : PyDateTime) : String := ⟨isoformat dt⟩

/-- Read two decimal digit characters as a number, rejecting non-digits. -/
def parse2 (a b : Char) : Option Nat :=
  if a.isDigit && b.isDigit then some (digitVal a * 10 + digitVal b) else none

/-- Read three decimal digit characters as a number, rejecting non-digits. -/
def parse3 (a b c : Char) : Option Nat :=
  if a.isDigit && b.isDigit && c.isDigit then
    some (digitVal a * 100 + digitVal b * 10 + digitVal c)
  else none

/-- Read four decimal digit characters as a number, rejecting non-digits. -/
def parse4 (a b c d : Char) : Option Nat :=
  if a.isDigit && b.isDigit && c.isDigit && d.isDigit then
    some (digitVal a * 1000 + digitVal b * 100 + digitVal c * 10 + digitVal d)
  else none

/-- Read six decimal digit characters as a number, rejecting non-digits. -/
def parse6 (a b c d e f : Char) : Option Nat :=
  if a.isDigit && b.isDigit && c.isDigit && d.isDigit && e.isDigit && f.isDigit then
    some (digitVal a * 100000 + digitVal b * 10000 + digitVal c * 1000 +
      digitVal d * 100 + digitVal e * 10 + digitVal f)
  else none

/-- Python's `_parse_isoformat_date`: the leading `YYYY-MM-DD` (exactly
ten characters, strict digits as in the C implementation), returning the
three fields and the remaining characters. -/
def parseIsoDate (cs : List Char) : Option (Nat × Nat × Nat × List Char) :=
  match cs with
  | y1 :: y2 :: y3 :: y4 :: q1 :: m1 :: m2 :: q2 :: d1 :: d2 :: rest =>
    if q1 = '-' ∧ q2 = '-' then
      match parse4 y1 y2 y3 y4, parse2 m1 m2, parse2 d1 d2 with
      | some y, some mo, some d => some (y, mo, d, rest)
      | _, _, _ => none
    else none
  | _ => none

/-- Python's `_parse_hh_mm_ss_ff`: a clock string of shape `HH`, `HH:MM`,
`HH:MM:SS`, `HH:MM:SS.fff` or `HH:MM:SS.ffffff` (fractions of exactly
three or six digits, a three-digit fraction counted in milliseconds);
any other shape raises. -/
def parseHMSF (cs : List Char) : Option (Nat × Nat × Nat × Nat) :=
  match cs with
  | [h1, h2] =>
    (parse2 h1 h2).map (fun hh => (hh, 0, 0, 0))
  | [h1, h2, q1, m1, m2] =>
    if q1 = ':' then
      match parse2 h1 h2, parse2 m1 m2 with
      | some hh, some mm => some (hh, mm, 0, 0)
      | _, _ => none
    else none
  | [h1, h2, q1, m1, m2, q2, s1, s2] =>
    if q1 = ':' ∧ q2 = ':' then
      match parse2 h1 h2, parse2 m1 m2, parse2 s1 s2 with
      | some hh, some mm, some ss => some (hh, mm, ss, 0)
      | _, _, _ => none
    else none
  | [h1, h2, q1, m1, m2, q2, s1, s2, qd, f1, f2, f3] =>
    if q1 = ':' ∧ q2 = ':' ∧ qd = '.' then
      match parse2 h1 h2, parse2 m1 m2, parse2 s1 s2, parse3 f1 f2 f3 with
      | some hh, some mm, some ss, some ff => some (hh, mm, ss, ff * 1000)
      | _, _, _, _ => none
    else none
  | [h1, h2, q1, m1, m2, q2, s1, s2, qd, f1, f2, f3, f4, f5, f6] =>
    if q1 = ':' ∧ q2 = ':' ∧ qd = '.' then
      match parse2 h1 h2, parse2 m1 m2, parse2 s1 s2, parse6 f1 f2 f3 f4 f5 f6 with
      | some hh, some mm, some ss, some ff => some (hh, mm, ss, ff)
      | _, _, _, _ => none
    else none
  | _ => none

/-- Index of the first occurrence of a character, if any. -/
def findChar (c : Char) : List Char → Option Nat
  | [] => none
  | x :: xs => if x = c then some 0 else (findChar c xs).map (· + 1)

/-- The timezone split of `_parse_isoformat_time`: the clock part before
the first sign character (the first `-` anywhere, else the first `+`),
and, when a sign is present, that sign with the characters after it. -/
def tzSplit (tstr : List Char) : List Char × Option (Char × List Char) :=
  match findChar '-' tstr with
  | some i => (tstr.take i, some ('-', tstr.drop (i + 1)))
  | none =>
    match findChar '+' tstr with
    | some i => (tstr.take i, some ('+', tstr.drop (i + 1)))
    | none => (tstr, none)

/-- Python's `_parse_isoformat_time`: clock fields plus an optional UTC
offset. The offset string must be exactly `HH:MM`, `HH:MM:SS` or
`HH:MM:SS.ffffff` (lengths 5, 8 or 15), and the signed offset must lie
strictly between minus and plus 24 hours (`timezone`'s range check). -/
def parseIsoTime (tstr : List Char) : Option (Nat × Nat × Nat × Nat × Option Int) :=
  let (timestr, tzpart) := tzSplit tstr
  match parseHMSF timestr with
  | none => none
  | some (hh, mm, ss, ff) =>
    match tzpart with
    | none => some (hh, mm, ss, ff, none)
    | some (sign, tzstr) =>
      if tzstr.length = 5 ∨ tzstr.length = 8 ∨ tzstr.length = 15 then
        match parseHMSF tzstr with
        | none => none
        | some (th, tm, ts, tf) =>
          let mag : Nat := th * 3600000000 + tm * 60000000 + ts * 1000000 + tf
          if mag < 86400000000 then
            some (hh, mm, ss, ff, some (if sign = '-' then -(mag : Int) else (mag : Int)))
          else none
      else none

/-- The `datetime.datetime` constructor's validation: field ranges
checked (day against the month's real length), any violation raising
`ValueError`. -/
def mkValidDateTime (y mo d hh mm ss ff : Nat) (tz : Option Int) : Option PyDateTime :=
  if 1 ≤ y ∧ y ≤ 9999 ∧ 1 ≤ mo ∧ mo ≤ 12 ∧ 1 ≤ d ∧ d ≤ daysInMonth y mo ∧
      hh ≤ 23 ∧ mm ≤ 59 ∧ ss ≤ 59 ∧ ff ≤ 999999 then
    some ⟨y, mo, d, hh, mm, ss, ff, tz⟩
  else none

/-- `datetime.fromisoformat` as implemented in CPython 3.7-3.10 (the
versions accepting exactly the formats `isoformat` emits, which 3.11
further widened): `YYYY-MM-DD`, optionally followed by one arbitrary
separator character and a clock part `HH[:MM[:SS[.fff[fff]]]]` with an
optional `±HH:MM[:SS[.ffffff]]` offset; field ranges are validated by
the datetime constructor. Any other string is a parse failure (`none`),
modelling the `ValueError` Python raises. -/
def fromisoformat (cs : List Char) : Option PyDateTime :=
  match parseIsoDate cs with
  | none => none
  | some (y, mo, d, rest) =>
    match rest with
    | [] => mkValidDateTime y mo d 0 0 0 0 none
    | _ :: tstr =>
      match tstr with
      | [] => none
      | _ :: _ =>
        match parseIsoTime tstr with
        | none => none
        | some (hh, mm, ss, ff, tz) => mkValidDateTime y mo d hh mm ss ff tz

/-- `fromisoformat` on a Lean `String`. -/
def fromisoformatStr (s : String) : Option PyDateTime := fromisoformat s.data

/-- Truncation of a datetime to minute precision (seconds and
microseconds zeroed), the comparison key of the round-trip property. -/
def truncToMinute (dt : PyDateTime) : PyDateTime :=
  { dt with second := 0, microsecond := 0 }

/-- One journal entry as held in `User._journal_entries`: a
`(date, content)` pair. -/
abbrev JournalEntry : Type := PyDateTime × String

/-- One JSON object of the persisted array, as `_load_journals` sees it:
a dict whose `date` and `content` keys may each be absent
(`item.get` returns `None` for a missing key). -/
structure RawRecord where
  date : Option String
  content : Option String
deriving DecidableEq, Repr

/-- The state of the backing per-user JSON file as observed by
`_load_journals`: absent, present but not a JSON array of objects
(any shape that makes the load body raise), or a JSON array of records. -/
inductive FileState where
  | missing : FileState
  | corrupt : FileState
  | jsonList : List RawRecord → FileState
deriving DecidableEq, Repr

/-- `User._save_journals` (line 60): each `(dt, content)` entry becomes
`{"date": dt.isoformat(), "content": content}`, in order. -/
def saveJournals (entries : List JournalEntry) : List RawRecord :=
  entries.map (fun e => ⟨some (isoformatStr e.1), some e.2⟩)

/-- The per-record timestamp recovery of `_load_journals` (lines 79-82):
`datetime.fromisoformat(item.get('date'))` with any exception (missing
key, hence `TypeError`, or unparseable string, hence `ValueError`)
replaced by `datetime.datetime.now()`. -/
def parseDateField (od : Option String) (now : PyDateTime) : PyDateTime :=
  match od with
  | none => now
  | some s => (fromisoformatStr s).getD now

/-- `User._load_journals` (lines 71-85): a missing file leaves the
entries as they are; any exception while reading or iterating yields an
empty list; otherwise each record is loaded with its parsed timestamp
(falling back to `now`) and its content (falling back to `""`). -/
def loadJournals (prev : List JournalEntry) (fs : FileState) (now : PyDateTime) :
    List JournalEntry :=
  match fs with
  | .missing => prev
  | .corrupt => []
  | .jsonList rs => rs.map (fun r => (parseDateField r.date now, r.content.getD ""))

/-- The state of one `User` object together with its backing file:
`_journal_password`, `_journal_entries`, and the file contents. -/
structure UserState where
  journal_password : Option String
  journal_entries : List JournalEntry
  file : FileState
deriving DecidableEq

/-- The `date` argument of `User.add_journal_entry`: omitted (`None`),
a `datetime.date` (date-only), or a full `datetime.datetime`. -/
inductive DateArg where
  | noneArg : DateArg
  | dateOnly : Nat → Nat → Nat → DateArg
  | dateTime : PyDateTime → DateArg

/-- The timestamp `add_journal_entry` stores (lines 45-49): `now` when no
date was given, midnight of the date when a date-only value was given,
and the datetime itself otherwise. -/
def resolveDate (arg : DateArg) (now : PyDateTime) : PyDateTime :=
  match arg with
  | .noneArg => now
  | .dateOnly y m d => ⟨y, m, d, 0, 0, 0, 0, none⟩
  | .dateTime dt => dt

/-- `User.add_journal_entry` (lines 43-55): appends `(date, entry)` to the
in-memory list, then attempts `_save_journals` with any exception
swallowed. `writeOk` models whether the file write succeeds; on failure
the file is left as it was and the call still returns normally. -/
def add_journal_entry (st : UserState) (entry : String) (arg : DateArg)
    (now : PyDateTime) (writeOk : Bool) : UserState :=
  let d := resolveDate arg now
  let entries := st.journal_entries ++ [(d, entry)]
  { st with
    journal_entries := entries
    file := if writeOk then .jsonList (saveJournals entries) else st.file }

/-- `User.get_journal_entries` (line 57): returns a copy of the list
(identity in this pure model). -/
def get_journal_entries (st : UserState) : List JournalEntry :=
  st.journal_entries

/-- `User.check_journal_password` (line 40): Python `==` between the
stored `_journal_password` (possibly `None`) and the candidate string. -/
def check_journal_password (stored : Option String) (pwd : String) : Bool :=
  match stored with
  | none => false
  | some s => s == pwd

/-- `DailyAffirmationProvider.get_affirmation` (lines 99-102): index of
today's affirmation, `datetime.date.today().toordinal() % len(affirmations)`. -/
def dailyIndex (affirmations : List String) (ordinalDay : Nat) : Nat :=
  ordinalDay % affirmations.length

/-- `DailyAffirmationProvider.get_affirmation`: the list element at
`dailyIndex`, as a function of the current local date's ordinal number. -/
def get_affirmation (affirmations : List String) (ordinalDay : Nat) : Option String :=
  affirmations.get? (dailyIndex affirmations ordinalDay)

/-- `StackManager` (lines 113-129): a Python list used as a LIFO stack,
the last element of the list being the top. -/
structure StackManager (α : Type) where
  stack : List α

/-- `StackManager.push`: `self._stack.append(item)`. -/
def StackManager.push {α : Type} (s : StackManager α) (item : α) : StackManager α :=
  ⟨s.stack ++ [item]⟩

/-- `StackManager.pop`: removes and returns the last element when the
list is nonempty, else returns `None` and leaves the stack unchanged. -/
def StackManager.pop {α : Type} (s : StackManager α) : Option α × StackManager α :=
  (s.stack.getLast?, ⟨s.stack.dropLast⟩)

/-- `StackManager.peek`: `self._stack[-1]` when nonempty, else `None`. -/
def StackManager.peek {α : Type} (s : StackManager α) : Option α :=
  s.stack.getLast?

/-- `StackManager.list_all`: a copy of the underlying list. -/
def StackManager.list_all {α : Type} (s : StackManager α) : List α :=
  s.stack

/-- The red-flag tier computation of `next_q` (lines 704-713): the count
of yes-answers mapped to a level label by fixed thresholds. -/
def redFlagLevel (answers : List Nat) : String :=
  let count := answers.sum
  if count = 0 then "Hijau (Aman)"
  else if count ≤ 2 then "Kuning (Waspada)"
  else "Merah (Berisiko)"

/-- The placeholder text of the partner entry field, which `do_login`
treats the same as an empty partner name. -/
def partnerPlaceholder : String := "Nama pasangan (opsional)..."

/-- The placeholder text of the username entry field. -/
def usernamePlaceholder : String := "Masukkan nama kamu..."

/-- `do_login` (lines 338-350), on the stripped entry texts: an empty or
placeholder username aborts the login; otherwise a `User` is created
(loading any persisted journals) and its journal password is set to the
partner name when that is nonempty and not the placeholder, else to the
fallback `"mine123"`. -/
def do_login (uname partner : String) (fs : FileState) (now : PyDateTime) :
    Option UserState :=
  if uname = "" ∨ uname = usernamePlaceholder then none
  else
    some
      { journal_password :=
          some (if partner ≠ "" ∧ partner ≠ partnerPlaceholder then partner else "mine123")
        journal_entries := loadJournals [] fs now
        file := fs }

/-- A decimal digit renders as a digit character. -/
theorem digitChar_isDigit (n : Nat) (h : n < 10) : (Nat.digitChar n).isDigit = true := by
  interval_cases n <;> decide

/-- `digitVal` inverts `Nat.digitChar` on decimal digits. -/
theorem digitVal_digitChar (n : Nat) (h : n < 10) : digitVal (Nat.digitChar n) = n := by
  interval_cases n <;> rfl

/-- `parse2` inverts `pad2`-style two-digit rendering below 100. -/
theorem parse2_digits (n : Nat) (h : n < 100) :
    parse2 (Nat.digitChar (n / 10)) (Nat.digitChar (n % 10)) = some n := by
  have h1 : n / 10 < 10 := by omega
  have h2 : n % 10 < 10 := by omega
  simp [parse2, digitChar_isDigit _ h1, digitChar_isDigit _ h2,
    digitVal_digitChar _ h1, digitVal_digitChar _ h2]
  omega

/-- `parse4` inverts `pad4`-style four-digit rendering below 10000. -/
theorem parse4_digits (n : Nat) (h : n < 10000) :
    parse4 (Nat.digitChar (n / 1000)) (Nat.digitChar (n / 100 % 10))
      (Nat.digitChar (n / 10 % 10)) (Nat.digitChar (n % 10)) = some n := by
  have h1 : n / 1000 < 10 := by omega
  have h2 : n / 100 % 10 < 10 := by omega
  have h3 : n / 10 % 10 < 10 := by omega
  have h4 : n % 10 < 10 := by omega
  simp [parse4, digitChar_isDigit _ h1, digitChar_isDigit _ h2, digitChar_isDigit _ h3,
    digitChar_isDigit _ h4, digitVal_digitChar _ h1, digitVal_digitChar _ h2,
    digitVal_digitChar _ h3, digitVal_digitChar _ h4]
  omega

/-- `parse6` inverts `pad6`-style six-digit rendering below 1000000. -/
theorem parse6_digits (n : Nat) (h : n < 1000000) :
    parse6 (Nat.digitChar (n / 100000)) (Nat.digitChar (n / 10000 % 10))
      (Nat.digitChar (n / 1000 % 10)) (Nat.digitChar (n / 100 % 10))
      (Nat.digitChar (n / 10 % 10)) (Nat.digitChar (n % 10)) = some n := by
  have h1 : n / 100000 < 10 := by omega
  have h2 : n / 10000 % 10 < 10 := by omega
  have h3 : n / 1000 % 10 < 10 := by omega
  have h4 : n / 100 % 10 < 10 := by omega
  have h5 : n / 10 % 10 < 10 := by omega
  have h6 : n % 10 < 10 := by omega
  simp [parse6, digitChar_isDigit _ h1, digitChar_isDigit _ h2, digitChar_isDigit _ h3,
    digitChar_isDigit _ h4, digitChar_isDigit _ h5, digitChar_isDigit _ h6,
    digitVal_digitChar _ h1, digitVal_digitChar _ h2, digitVal_digitChar _ h3,
    digitVal_digitChar _ h4, digitVal_digitChar _ h5, digitVal_digitChar _ h6]
  omega

/-- No month is longer than 31 days. -/
theorem daysInMonth_le (y m : Nat) : daysInMonth y m ≤ 31 := by
  unfold daysInMonth
  split_ifs <;> omega

/-- A decimal digit character is never a dash. -/
theorem digitChar_ne_dash (n : Nat) (h : n < 10) : Nat.digitChar n ≠ '-' := by
  interval_cases n <;> decide

/-- A decimal digit character is never a plus sign. -/
theorem digitChar_ne_plus (n : Nat) (h : n < 10) : Nat.digitChar n ≠ '+' := by
  interval_cases n <;> decide

/-- `findChar` finds nothing in a list free of the character. -/
theorem findChar_eq_none (c : Char) : (l : List Char) → (∀ x ∈ l, x ≠ c) →
    findChar c l = none
  | [], _ => rfl
  | x :: xs, h => by
    simp only [findChar]
    rw [if_neg (h x (List.mem_cons_self x xs)),
      findChar_eq_none c xs (fun y hy => h y (List.mem_cons_of_mem x hy))]
    rfl

/-- Parsing inverts formatting on every datetime satisfying the Python
constructor invariants: `fromisoformat (isoformat dt)` recovers `dt`
exactly. -/
theorem fromisoformat_isoformat (dt : PyDateTime) (h : ValidPyDateTime dt) :
    fromisoformat (isoformat dt) = some dt := by
  obtain ⟨y, mo, d, hh, mi, s, u, tz⟩ := dt
  obtain ⟨hy1, hy2, hm1, hm2, hd1, hd2, hhh, hmi, hs, hu, htz⟩ := h
  simp only at hy1 hy2 hm1 hm2 hd1 hd2 hhh hmi hs hu htz
  subst htz
  by_cases hu0 : u = 0
  · subst hu0
    simp only [isoformat, pad4, pad2, pad6, if_true, and_self, List.cons_append,
      List.nil_append, List.append_nil]
    simp only [fromisoformat, parseIsoDate, and_self, if_true]
    rw [parse4_digits y (by omega), parse2_digits mo (by omega),
      parse2_digits d (by have := daysInMonth_le y mo; omega)]
    simp only [parseIsoTime, tzSplit, and_self, if_true]
    rw [findChar_eq_none '-' _ (by
      intro x hx
      simp only [List.mem_cons, List.not_mem_nil, or_false] at hx
      rcases hx with rfl | rfl | rfl | rfl | rfl | rfl | rfl | rfl <;>
        first | exact digitChar_ne_dash _ (by omega) | decide)]
    rw [findChar_eq_none '+' _ (by
      intro x hx
      simp only [List.mem_cons, List.not_mem_nil, or_false] at hx
      rcases hx with rfl | rfl | rfl | rfl | rfl | rfl | rfl | rfl <;>
        first | exact digitChar_ne_plus _ (by omega) | decide)]
    simp only [parseHMSF, and_self, if_true]
    rw [parse2_digits hh (by omega), parse2_digits mi (by omega), parse2_digits s (by omega)]
    simp only [mkValidDateTime]
    rw [if_pos ⟨hy1, hy2, hm1, hm2, hd1, hd2, hhh, hmi, hs, by omega⟩]
  · simp only [isoformat, pad4, pad2, pad6, if_neg hu0, List.cons_append, List.nil_append,
      List.append_nil]
    simp only [fromisoformat, parseIsoDate, and_self, if_true]
    rw [parse4_digits y (by omega), parse2_digits mo (by omega),
      parse2_digits d (by have := daysInMonth_le y mo; omega)]
    simp only [parseIsoTime, tzSplit, and_self, if_true]
    rw [findChar_eq_none '-' _ (by
      intro x hx
      simp only [List.mem_cons, List.not_mem_nil, or_false] at hx
      rcases hx with rfl | rfl | rfl | rfl | rfl | rfl | rfl | rfl | rfl | rfl | rfl | rfl |
        rfl | rfl | rfl <;>
        first | exact digitChar_ne_dash _ (by omega) | decide)]
    rw [findChar_eq_none '+' _ (by
      intro x hx
      simp only [List.mem_cons, List.not_mem_nil, or_false] at hx
      rcases hx with rfl | rfl | rfl | rfl | rfl | rfl | rfl | rfl | rfl | rfl | rfl | rfl |
        rfl | rfl | rfl <;>
        first | exact digitChar_ne_plus _ (by omega) | decide)]
    simp only [parseHMSF, and_self, if_true]
    rw [parse2_digits hh (by omega), parse2_digits mi (by omega), parse2_digits s (by omega)]
    rw [parse6_digits u (by omega)]
    simp only [mkValidDateTime]
    rw [if_pos ⟨hy1, hy2, hm1, hm2, hd1, hd2, hhh, hmi, hs, by omega⟩]

/-- Parser fidelity on accepted formats: date-only strings parse to
midnight, the separator may be any character (space included), clock
parts may stop after the hour or minute, fractions may have three
digits (milliseconds) as well as six, and `±HH:MM` offsets yield aware
datetimes carrying the signed offset. -/
theorem fromisoformat_accepted_formats :
    fromisoformatStr "2024-03-07" = some ⟨2024, 3, 7, 0, 0, 0, 0, none⟩ ∧
    fromisoformatStr "2024-03-07 09:05:30" = some ⟨2024, 3, 7, 9, 5, 30, 0, none⟩ ∧
    fromisoformatStr "2024-03-07T09:05" = some ⟨2024, 3, 7, 9, 5, 0, 0, none⟩ ∧
    fromisoformatStr "2024-03-07T09" = some ⟨2024, 3, 7, 9, 0, 0, 0, none⟩ ∧
    fromisoformatStr "2024-03-07T09:05:30.123" = some ⟨2024, 3, 7, 9, 5, 30, 123000, none⟩ ∧
    fromisoformatStr "2024-03-07T09:05:30+05:00" =
      some ⟨2024, 3, 7, 9, 5, 30, 0, some 18000000000⟩ ∧
    fromisoformatStr "2024-03-07T09:05:30-05:30" =
      some ⟨2024, 3, 7, 9, 5, 30, 0, some (-19800000000)⟩ := by
  refine ⟨?_, ?_, ?_, ?_, ?_, ?_, ?_⟩ <;> decide

/-- Parser fidelity on rejected strings: the constructor's field-range
validation rejects out-of-range days (leap years respected), months,
clock fields and year zero, and out-of-range UTC offsets and malformed
strings fail exactly as Python's `ValueError`. -/
theorem fromisoformat_rejected_strings :
    fromisoformatStr "2024-02-30T00:00:00" = none ∧
    fromisoformatStr "2023-02-29" = none ∧
    fromisoformatStr "2024-02-29" = some ⟨2024, 2, 29, 0, 0, 0, 0, none⟩ ∧
    fromisoformatStr "2024-13-31T25:99:99" = none ∧
    fromisoformatStr "0000-01-01" = none ∧
    fromisoformatStr "2024-03-07T" = none ∧
    fromisoformatStr "2024-03-07T09:05:30+99:00" = none ∧
    fromisoformatStr "not-a-date" = none := by
  refine ⟨?_, ?_, ?_, ?_, ?_, ?_, ?_, ?_⟩ <;> decide

/-- Reloading what `_save_journals` wrote recovers the entry list exactly,
for entries whose timestamps satisfy the Python datetime invariants. -/
theorem loadJournals_saveJournals (entries : List JournalEntry) (now : PyDateTime)
    (h : ∀ e ∈ entries, ValidPyDateTime e.1) :
    loadJournals [] (.jsonList (saveJournals entries)) now = entries := by
  induction entries with
  | nil => rfl
  | cons e rest ih =>
    have he : ValidPyDateTime e.1 := h e (List.mem_cons_self e rest)
    have hrest : ∀ x ∈ rest, ValidPyDateTime x.1 := fun x hx => h x (List.mem_cons_of_mem e hx)
    simp only [loadJournals, saveJournals, List.map_cons] at *
    refine congrArg₂ List.cons ?_ (ih hrest)
    show (parseDateField (some (isoformatStr e.1)) now, (some e.2).getD "") = e
    simp only [parseDateField, fromisoformatStr, isoformatStr, Option.getD_some]
    rw [fromisoformat_isoformat e.1 he]
    rfl

/-- Claim C1: saving the store to the JSON file format and reloading it
yields the same multiset of `(content, timestamp-truncated-to-minute)`
pairs, for every entry sequence whose timestamps satisfy the Python
datetime invariants (the reload is in fact the identity). -/
theorem save_load_roundtrip (entries : List JournalEntry) (now : PyDateTime)
    (h : ∀ e ∈ entries, ValidPyDateTime e.1) :
    (((loadJournals [] (.jsonList (saveJournals entries)) now).map
        (fun e => (e.2, truncToMinute e.1)) : List (String × PyDateTime)) : Multiset (String × PyDateTime)) =
      ((entries.map (fun e => (e.2, truncToMinute e.1)) : List (String × PyDateTime)) : Multiset (String × PyDateTime)) := by
  rw [loadJournals_saveJournals entries now h]

/-- Concrete instance of claim C1: a two-entry store round-trips. -/
theorem save_load_roundtrip_witness :
    (∀ e ∈ ([(⟨2024, 3, 7, 9, 5, 30, 123456, none⟩, "hello"), (⟨2024, 12, 31, 23, 59, 0, 0, none⟩, "hai")] :
        List JournalEntry), ValidPyDateTime e.1) ∧
    (((loadJournals [] (.jsonList (saveJournals
          [(⟨2024, 3, 7, 9, 5, 30, 123456, none⟩, "hello"), (⟨2024, 12, 31, 23, 59, 0, 0, none⟩, "hai")]))
          ⟨2025, 1, 1, 0, 0, 0, 0, none⟩).map
        (fun e => (e.2, truncToMinute e.1)) : List (String × PyDateTime)) : Multiset (String × PyDateTime)) =
      (([(⟨2024, 3, 7, 9, 5, 30, 123456, none⟩, "hello"), (⟨2024, 12, 31, 23, 59, 0, 0, none⟩, "hai")] :
          List JournalEntry).map
        (fun e => (e.2, truncToMinute e.1)) : List (String × PyDateTime)) :=
  ⟨by decide,
    save_load_roundtrip
      [(⟨2024, 3, 7, 9, 5, 30, 123456, none⟩, "hello"), (⟨2024, 12, 31, 23, 59, 0, 0, none⟩, "hai")]
      ⟨2025, 1, 1, 0, 0, 0, 0, none⟩ (by decide)⟩

/-- Claim C2: `add_journal_entry` followed by `get_journal_entries` yields a
sequence containing an entry with exactly the given content; a date-only
argument is stored as midnight of that date, and an omitted argument as
the current time. -/
theorem append_then_list_contains (st : UserState) (content : String)
    (arg : DateArg) (now : PyDateTime) (writeOk : Bool) :
    (resolveDate arg now, content) ∈
        get_journal_entries (add_journal_entry st content arg now writeOk) ∧
      (∀ y m d, resolveDate (.dateOnly y m d) now = ⟨y, m, d, 0, 0, 0, 0, none⟩) ∧
      resolveDate .noneArg now = now := by
  refine ⟨?_, fun y m d => rfl, rfl⟩
  simp [get_journal_entries, add_journal_entry]

/-- Claim C3: `add_journal_entry` is total for every write outcome: whether
or not the file write succeeds, the call returns normally with the new
entry appended to the in-memory sequence, and a failed write leaves the
file as it was (the failure is swallowed, not propagated). -/
theorem append_swallows_save_failure (st : UserState) (content : String)
    (arg : DateArg) (now : PyDateTime) :
    (∀ writeOk, (add_journal_entry st content arg now writeOk).journal_entries =
        st.journal_entries ++ [(resolveDate arg now, content)]) ∧
      (add_journal_entry st content arg now false).file = st.file :=
  ⟨fun _ => rfl, rfl⟩

/-- Claim C4: `_load_journals` never fails: a missing file leaves the store
unchanged, a corrupt file yields an empty store, and a record whose
timestamp string is unparseable is kept with the current time as its
timestamp. -/
theorem load_error_handling (prev : List JournalEntry) (now : PyDateTime)
    (s c : String) (rest : List RawRecord)
    (hbad : fromisoformatStr s = none) :
    loadJournals prev .missing now = prev ∧
    loadJournals prev .corrupt now = [] ∧
    loadJournals prev (.jsonList (⟨some s, some c⟩ :: rest)) now =
      (now, c) :: loadJournals prev (.jsonList rest) now := by
  refine ⟨rfl, rfl, ?_⟩
  simp [loadJournals, parseDateField, hbad]

/-- Concrete instance of claim C4: loading the record
`{"date": "2024-02-30T00:00:00", "content": "x"}` — a timestamp Python
rejects because February has no 30th day — keeps the entry, timestamped
with the current time. -/
theorem load_error_handling_witness :
    fromisoformatStr "2024-02-30T00:00:00" = none ∧
    (loadJournals [] .missing ⟨2025, 1, 1, 0, 0, 0, 0, none⟩ = [] ∧
      loadJournals [] .corrupt ⟨2025, 1, 1, 0, 0, 0, 0, none⟩ = [] ∧
      loadJournals [] (.jsonList [⟨some "2024-02-30T00:00:00", some "x"⟩])
          ⟨2025, 1, 1, 0, 0, 0, 0, none⟩ =
        (⟨2025, 1, 1, 0, 0, 0, 0, none⟩, "x") ::
          loadJournals [] (.jsonList []) ⟨2025, 1, 1, 0, 0, 0, 0, none⟩) :=
  ⟨by decide,
    load_error_handling [] ⟨2025, 1, 1, 0, 0, 0, 0, none⟩ "2024-02-30T00:00:00" "x" []
      (by decide)⟩

/-- Claim C10: a well-formed record that lacks the `content` key loads
without failing, with the empty string as the entry's content. -/
theorem load_missing_content_defaults_empty (prev : List JournalEntry)
    (now : PyDateTime) (od : Option String) (rest : List RawRecord) :
    loadJournals prev (.jsonList (⟨od, none⟩ :: rest)) now =
      (parseDateField od now, "") :: loadJournals prev (.jsonList rest) now :=
  rfl

/-- Claim C5: for a nonempty affirmation list the daily provider returns
the element at index `ordinalDay % length`; that index is always in
bounds (for any valid ordinal day, including day 1 and very large
future dates), the result is the same for every call on the same local
date, and two calls that disagree were made on different local dates. -/
theorem daily_affirmation_correct (affirmations : List String) (ordinalDay : Nat)
    (h : 0 < affirmations.length) :
    dailyIndex affirmations ordinalDay = ordinalDay % affirmations.length ∧
    dailyIndex affirmations ordinalDay < affirmations.length ∧
    get_affirmation affirmations ordinalDay =
      some (affirmations.get ⟨dailyIndex affirmations ordinalDay,
        Nat.mod_lt ordinalDay h⟩) ∧
    (∀ d2, d2 = ordinalDay →
      get_affirmation affirmations d2 = get_affirmation affirmations ordinalDay) ∧
    (∀ d2, get_affirmation affirmations d2 ≠ get_affirmation affirmations ordinalDay →
      d2 ≠ ordinalDay) := by
  refine ⟨rfl, Nat.mod_lt ordinalDay h, ?_, fun d2 hd => by rw [hd], fun d2 hne hd => hne (by rw [hd])⟩
  simp [get_affirmation, dailyIndex, List.get?_eq_get (Nat.mod_lt ordinalDay h)]

/-- Concrete instance of claim C5: a three-element list, queried at
ordinal day 1 and at the ordinal day of 9999-12-31. -/
theorem daily_affirmation_witness :
    0 < (["a", "b", "c"] : List String).length ∧
    get_affirmation ["a", "b", "c"] 1 =
      some ((["a", "b", "c"] : List String).get ⟨dailyIndex ["a", "b", "c"] 1,
        Nat.mod_lt 1 (by decide)⟩) ∧
    dailyIndex ["a", "b", "c"] 3652059 < (["a", "b", "c"] : List String).length :=
  ⟨by decide, (daily_affirmation_correct ["a", "b", "c"] 1 (by decide)).2.2.1,
    (daily_affirmation_correct ["a", "b", "c"] 3652059 (by decide)).2.1⟩

/-- Claim C6: `StackManager` is LIFO: pushing `a`, `b`, `c` onto the empty
stack and popping three times yields `c`, `b`, `a`; a fourth pop, and pop
or peek on the empty stack, return `none` (the empty-signal) rather than
failing. -/
theorem stack_lifo {α : Type} (a b c : α) :
    ((((⟨[]⟩ : StackManager α).push a).push b).push c).pop.1 = some c ∧
    (((((⟨[]⟩ : StackManager α).push a).push b).push c).pop.2).pop.1 = some b ∧
    ((((((⟨[]⟩ : StackManager α).push a).push b).push c).pop.2).pop.2).pop.1 = some a ∧
    (((((((⟨[]⟩ : StackManager α).push a).push b).push c).pop.2).pop.2).pop.2).pop.1 = none ∧
    (⟨[]⟩ : StackManager α).pop = (none, ⟨[]⟩) ∧
    (⟨[]⟩ : StackManager α).peek = none :=
  ⟨rfl, rfl, rfl, rfl, rfl, rfl⟩

/-- Claim C7: the red-flag check maps the count of yes-answers to tiers by
fixed thresholds: 0 to the safe tier `"Hijau (Aman)"`, 1 or 2 to the
caution tier `"Kuning (Waspada)"`, 3 or more to the risk tier
`"Merah (Berisiko)"`; in particular `[1,1,1,0,0]` maps to risk,
`[0,0,0,0,0]` to safe, and `[1,0,0,0,0]` to caution. -/
theorem red_flag_thresholds (answers : List Nat) :
    (answers.sum = 0 → redFlagLevel answers = "Hijau (Aman)") ∧
    (1 ≤ answers.sum ∧ answers.sum ≤ 2 → redFlagLevel answers = "Kuning (Waspada)") ∧
    (3 ≤ answers.sum → redFlagLevel answers = "Merah (Berisiko)") ∧
    redFlagLevel [1, 1, 1, 0, 0] = "Merah (Berisiko)" ∧
    redFlagLevel [0, 0, 0, 0, 0] = "Hijau (Aman)" ∧
    redFlagLevel [1, 0, 0, 0, 0] = "Kuning (Waspada)" := by
  refine ⟨fun h0 => ?_, fun hc => ?_, fun hr => ?_, rfl, rfl, rfl⟩ <;>
    simp only [redFlagLevel] <;> split_ifs <;> first | rfl | omega

/-- Concrete instance of claim C7: two yes-answers land in the caution
tier. -/
theorem red_flag_thresholds_witness : redFlagLevel [1, 1, 0, 0, 0] = "Kuning (Waspada)" :=
  (red_flag_thresholds [1, 1, 0, 0, 0]).2.1 (by decide)

/-- Claim C8: `check_journal_password` returns `true` exactly when the
candidate equals the stored secret string (so any other candidate,
including the empty string and case-variants, is rejected), and always
`false` while no secret is stored. -/
theorem check_secret_exact (secret candidate : String) :
    (check_journal_password (some secret) candidate = true ↔ candidate = secret) ∧
    check_journal_password none candidate = false := by
  constructor
  · simp only [check_journal_password, beq_iff_eq]
    exact eq_comm
  · rfl

/-- Concrete instance of claim C8: exact match accepted, case-variant and
empty string rejected. -/
theorem check_secret_exact_witness :
    check_journal_password (some "Rafi") "Rafi" = true ∧
    check_journal_password (some "Rafi") "rafi" ≠ true ∧
    check_journal_password (some "Rafi") "" ≠ true :=
  ⟨(check_secret_exact "Rafi" "Rafi").1.mpr rfl,
    fun h => by simpa using (check_secret_exact "Rafi" "rafi").1.mp h,
    fun h => by simpa using (check_secret_exact "Rafi" "").1.mp h⟩

/-- Counterexample to claim C9 as stated: logging in with the non-empty
partner entry text `"Nama pasangan (opsional)..."` (the placeholder) sets
the journal secret to the fallback `"mine123"`, not to that partner
name. -/
theorem login_placeholder_counterexample :
    partnerPlaceholder ≠ "" ∧
    (do_login "alice" partnerPlaceholder .missing ⟨2025, 1, 1, 0, 0, 0, 0, none⟩).map
        (fun st => st.journal_password) = some (some "mine123") ∧
    some (partnerPlaceholder : String) ≠ some "mine123" := by
  refine ⟨by decide, ?_, by decide⟩
  decide

/-- Claim C9 (amended): on a successful login the journal secret is the
partner name when that name is non-empty and differs from the entry
field's placeholder text, and the fallback `"mine123"` otherwise; in
every case it is one of the two. -/
theorem login_secret_amended (uname partner : String) (fs : FileState)
    (now : PyDateTime) (st : UserState)
    (h : do_login uname partner fs now = some st) :
    (partner ≠ "" ∧ partner ≠ partnerPlaceholder → st.journal_password = some partner) ∧
    (partner = "" ∨ partner = partnerPlaceholder → st.journal_password = some "mine123") ∧
    (st.journal_password = some partner ∨ st.journal_password = some "mine123") := by
  unfold do_login at h
  by_cases hu : uname = "" ∨ uname = usernamePlaceholder
  · rw [if_pos hu] at h
    exact absurd h (by simp)
  · rw [if_neg hu] at h
    have hst : st =
        ⟨some (if partner ≠ "" ∧ partner ≠ partnerPlaceholder then partner else "mine123"),
          loadJournals [] fs now, fs⟩ :=
      (Option.some_inj.mp h).symm
    subst hst
    by_cases hp : partner ≠ "" ∧ partner ≠ partnerPlaceholder
    · exact ⟨fun _ => by simp [if_pos hp], fun hor => by tauto, Or.inl (by simp [if_pos hp])⟩
    · exact ⟨fun hgood => absurd hgood hp, fun _ => by simp [if_neg hp],
        Or.inr (by simp [if_neg hp])⟩

/-- Concrete instance of the amended claim C9: logging in as `"alice"`
with partner `"Budi"` stores `"Budi"` as the journal secret. -/
theorem login_secret_amended_witness :
    do_login "alice" "Budi" .missing ⟨2025, 1, 1, 0, 0, 0, 0, none⟩ =
        some ⟨some "Budi", [], .missing⟩ ∧
      (⟨some "Budi", [], .missing⟩ : UserState).journal_password = some "Budi" :=
  ⟨by decide,
    (login_secret_amended "alice" "Budi" .missing ⟨2025, 1, 1, 0, 0, 0, 0, none⟩
        ⟨some "Budi", [], .missing⟩ (by decide)).1 (by decide)⟩
